import Mathlib

/-!
Shallow embedding of `src/3_more_routing.py`, a single-file FastAPI CRUD
service over an in-memory dictionary of items.

Modelling conventions:
* The Python `dict[int, Item]` is embedded as an insertion-ordered
  association list `List (Int × Item)` with the dictionary operations
  (`in`, `[]`, assignment, `pop`) translated one to one (`dictMem`,
  `dictGet?`, `dictSet`, `dictPop`).
* Python `float` prices are embedded as exact rationals (`Rat`); the code
  only stores prices and compares them with `==`, never computes with them.
  The literals 9.99, 5.99, 1.99 are written as explicit reduced fractions.
* Each route handler becomes a function threading the mutable global
  `items` explicitly: it takes the current mapping and returns the new
  mapping together with its outcome.  A raised `HTTPException` becomes
  `Except.error (.httpError status detail)`; an unhandled `KeyError`
  from `items[item_id]` / `items.pop(item_id)` becomes
  `Except.error (.keyError item_id)`.  An `HTTPException` that the source
  merely constructs without `raise` has no effect, so those statements
  vanish in the translation (they are recorded in comments).
-/

namespace MoreRouting

/-- `Category(Enum)` of the source: category of an item. -/
inductive Category where
  | tools
  | consumables
deriving DecidableEq, Repr

/-- `Item(BaseModel)` of the source: representation of an item in the system. -/
structure Item where
  name : String
  price : Rat
  count : Int
  id : Int
  category : Category
deriving DecidableEq, Repr

/-- The in-memory store: Python `dict[int, Item]` as an insertion-ordered
association list. -/
abbrev Items := List (Int × Item)

/-- Python `k in d` for the items dictionary: a scan comparing keys. -/
def dictMem (k : Int) (d : Items) : Bool :=
  d.any (fun p => p.1 == k)

/-- Python `d[k]`: the value stored under `k`, `none` when `k` is absent
(where CPython raises `KeyError`). -/
def dictGet? (k : Int) (d : Items) : Option Item :=
  match d with
  | [] => none
  | (k', v) :: rest => if k' = k then some v else dictGet? k rest

/-- Python `d[k] = v`: replace the entry at `k` in place when present,
otherwise append the new entry at the end (dict insertion order). -/
def dictSet (k : Int) (v : Item) (d : Items) : Items :=
  match d with
  | [] => [(k, v)]
  | (k', v') :: rest => if k' = k then (k, v) :: rest else (k', v') :: dictSet k v rest

/-- Python `d.pop(k)` (the mutation part): remove the entry at `k`. -/
def dictPop (k : Int) (d : Items) : Items :=
  match d with
  | [] => []
  | (k', v') :: rest => if k' = k then rest else (k', v') :: dictPop k rest

/-- What a dictionary guarantees and the association list must assume:
keys occur at most once. -/
def UniqueKeys (d : Items) : Prop :=
  (d.map Prod.fst).Nodup

instance : DecidablePred UniqueKeys := fun d =>
  inferInstanceAs (Decidable (d.map Prod.fst).Nodup)

/-- How a handler invocation can fail: a raised `HTTPException(status, detail)`,
or an unhandled `KeyError` escaping as a server error. -/
inductive HandlerError where
  | httpError (status : Nat) (detail : String)
  | keyError (key : Int)
deriving DecidableEq, Repr

instance {ε α : Type} [DecidableEq ε] [DecidableEq α] : DecidableEq (Except ε α)
  | Except.ok x, Except.ok y =>
    if h : x = y then Decidable.isTrue (congrArg Except.ok h)
    else Decidable.isFalse (fun e => h (Except.ok.inj e))
  | Except.error x, Except.error y =>
    if h : x = y then Decidable.isTrue (congrArg Except.error h)
    else Decidable.isFalse (fun e => h (Except.error.inj e))
  | Except.ok _, Except.error _ => Decidable.isFalse (fun e => Except.noConfusion e)
  | Except.error _, Except.ok _ => Decidable.isFalse (fun e => Except.noConfusion e)

/-- 9.99 as an exact rational. -/
def pHammer : Rat := ⟨999, 100, by decide, by decide⟩

/-- 5.99 as an exact rational. -/
def pPliers : Rat := ⟨599, 100, by decide, by decide⟩

/-- 1.99 as an exact rational. -/
def pNails : Rat := ⟨199, 100, by decide, by decide⟩

/-- The initial value of the module-level `items` dictionary. -/
def initialItems : Items :=
  [ (0, ⟨"Hammer", pHammer, 20, 0, Category.tools⟩),
    (1, ⟨"Pliers", pPliers, 20, 1, Category.tools⟩),
    (2, ⟨"Nails", pNails, 100, 2, Category.consumables⟩) ]

/-- `GET /`: `index` returns `{"items": items}` and does not touch the store. -/
def index (items : Items) : Items × (String × Items) :=
  (items, ("items", items))

/-- `GET /items/{item_id}`: `query_item_by_id`.  The `item_id not in items`
branch constructs `HTTPException(404, ...)` but never raises it, so it has no
effect; `return items[item_id]` then raises `KeyError` when the id is absent. -/
def query_item_by_id (item_id : Int) (items : Items) :
    Items × Except HandlerError Item :=
  match dictGet? item_id items with
  | some it => (items, Except.ok it)
  | none => (items, Except.error (HandlerError.keyError item_id))

/-- The `Selection` dictionary of query arguments echoed back by
`query_item_by_parameters` (its `"query"` field). -/
structure QueryParams where
  name : Option String
  price : Option Rat
  count : Option Int
  category : Option Category
deriving DecidableEq, Repr

/-- The inner `check_item` of `query_item_by_parameters`: does the item match
the query arguments from the outer scope?  Note the source compares the count
with `item.count != count` (line 69), not `==`. -/
def check_item (q : QueryParams) (item : Item) : Bool :=
  (match q.name with | none => true | some n => item.name == n) &&
  (match q.price with | none => true | some p => item.price == p) &&
  (match q.count with | none => true | some c => item.count != c) &&
  (match q.category with | none => true | some c => item.category == c)

/-- The response of `query_item_by_parameters`:
`{"query": {...}, "selection": [...]}`. -/
structure QueryResult where
  query : QueryParams
  selection : List Item
deriving DecidableEq, Repr

/-- `GET /items/`: `query_item_by_parameters` filters `items.values()` by
`check_item` and echoes the query arguments back. -/
def query_item_by_parameters (name : Option String) (price : Option Rat)
    (count : Option Int) (category : Option Category) (items : Items) :
    Items × QueryResult :=
  let q : QueryParams := ⟨name, price, count, category⟩
  (items, ⟨q, (items.map Prod.snd).filter (fun item => check_item q item)⟩)

/-- `POST /`: `add_item`.  The `item.id in items` branch constructs
`HTTPException(400, f"Item with {item.id} already exist")` but never raises
it, so it has no effect; the handler always stores the item and returns
`{"added": item}`. -/
def add_item (item : Item) (items : Items) :
    Items × Except HandlerError (String × Item) :=
  (dictSet item.id item items, Except.ok ("added", item))

/-- The three `if ... is not None:` assignments in the body of `update`:
write each supplied field to the item, in source order. -/
def applyUpdate (name : Option String) (price : Option Rat)
    (count : Option Int) (item0 : Item) : Item :=
  let item1 := match name with | some n => { item0 with name := n } | none => item0
  let item2 := match price with | some p => { item1 with price := p } | none => item1
  match count with | some c => { item2 with count := c } | none => item2

/-- `PUT /update/{item_id}`: `update`.  The `item_id not in items` branch
constructs `HTTPException(404, ...)` but never raises it, so it has no
effect.  When all of `name`, `price`, `count` are `None` it raises
`HTTPException(400, ...)`.  Otherwise `items[item_id]` raises `KeyError`
when the id is absent; when present, the non-`None` fields are written to
the stored item in place (`applyUpdate`) and `{"updated": item}` is
returned. -/
def update (item_id : Int) (name : Option String) (price : Option Rat)
    (count : Option Int) (items : Items) :
    Items × Except HandlerError (String × Item) :=
  if name.isNone && price.isNone && count.isNone then
    (items, Except.error (HandlerError.httpError 400 "No parameters provide for update."))
  else
    match dictGet? item_id items with
    | none => (items, Except.error (HandlerError.keyError item_id))
    | some item0 =>
      let item3 := applyUpdate name price count item0
      (dictSet item_id item3 items, Except.ok ("updated", item3))

/-- `DELETE /delete/{item_id}`: `delete_item` raises
`HTTPException(404, f"Item with {item_id} does not exist.")` when the id is
absent (this one IS raised in the source), otherwise pops the entry and
returns `{"delete": item}`.  The inner `none` case is unreachable because the
`dictMem` guard holds there. -/
def delete_item (item_id : Int) (items : Items) :
    Items × Except HandlerError (String × Item) :=
  if dictMem item_id items then
    match dictGet? item_id items with
    | some it => (dictPop item_id items, Except.ok ("delete", it))
    | none => (items, Except.error (HandlerError.keyError item_id))
  else
    (items, Except.error (HandlerError.httpError 404 s!"Item with {item_id} does not exist."))

/-- Modelled from the spec: the filter the spec describes for
`query_item_by_parameters` — "a linear scan with an equality predicate" on
each supplied field, so equality also for `count`.  Stated only to be
compared with the source's `check_item`. -/
def check_item_eq (q : QueryParams) (item : Item) : Bool :=
  (match q.name with | none => true | some n => item.name == n) &&
  (match q.price with | none => true | some p => item.price == p) &&
  (match q.count with | none => true | some c => item.count == c) &&
  (match q.category with | none => true | some c => item.category == c)

/-- 25.00 as an exact rational, a fresh price for concrete instantiations. -/
def pSledge : Rat := ⟨25, 1, by decide, by decide⟩

/-- 12.00 as an exact rational, a fresh price for concrete instantiations. -/
def pWrench : Rat := ⟨12, 1, by decide, by decide⟩

/-- A posted item whose id 0 collides with the stored Hammer. -/
def dupItem : Item := ⟨"Sledge", pSledge, 5, 0, Category.tools⟩

/-- A posted item with the fresh id 7. -/
def newItem : Item := ⟨"Wrench", pWrench, 3, 7, Category.tools⟩

/-- An id absent from the initial store. -/
def missingId : Int := 5

/-! Lemmas about the dictionary operations. -/

theorem dictMem_cons (k k' : Int) (v' : Item) (rest : Items) :
    dictMem k ((k', v') :: rest) = ((k' == k) || dictMem k rest) := rfl

theorem dictGet?_cons (k k' : Int) (v' : Item) (rest : Items) :
    dictGet? k ((k', v') :: rest)
      = if k' = k then some v' else dictGet? k rest := rfl

theorem dictSet_cons (k : Int) (v : Item) (k' : Int) (v' : Item) (rest : Items) :
    dictSet k v ((k', v') :: rest)
      = if k' = k then (k, v) :: rest else (k', v') :: dictSet k v rest := rfl

theorem dictPop_cons (k k' : Int) (v' : Item) (rest : Items) :
    dictPop k ((k', v') :: rest)
      = if k' = k then rest else (k', v') :: dictPop k rest := rfl

theorem dictGet?_dictSet_self (k : Int) (v : Item) (d : Items) :
    dictGet? k (dictSet k v d) = some v := by
  induction d with
  | nil => simp [dictSet, dictGet?]
  | cons p rest ih =>
    obtain ⟨k', v'⟩ := p
    by_cases h : k' = k
    · simp [dictSet_cons, dictGet?_cons, h]
    · simp [dictSet_cons, dictGet?_cons, h, ih]

theorem dictGet?_dictSet_ne (k j : Int) (v : Item) (d : Items) (h : j ≠ k) :
    dictGet? j (dictSet k v d) = dictGet? j d := by
  have h' : ¬ (k = j) := fun e => h e.symm
  induction d with
  | nil => simp [dictSet, dictGet?, h']
  | cons p rest ih =>
    obtain ⟨k', v'⟩ := p
    by_cases hk : k' = k
    · simp [dictSet_cons, dictGet?_cons, hk, h']
    · simp [dictSet_cons, dictGet?_cons, hk, ih]

theorem dictGet?_dictPop_ne (k j : Int) (d : Items) (h : j ≠ k) :
    dictGet? j (dictPop k d) = dictGet? j d := by
  have h' : ¬ (k = j) := fun e => h e.symm
  induction d with
  | nil => rfl
  | cons p rest ih =>
    obtain ⟨k', v'⟩ := p
    by_cases hk : k' = k
    · simp [dictPop_cons, dictGet?_cons, hk, h']
    · simp [dictPop_cons, dictGet?_cons, hk, ih]

theorem dictGet?_eq_none_of_not_mem (k : Int) (d : Items)
    (h : k ∉ d.map Prod.fst) : dictGet? k d = none := by
  induction d with
  | nil => rfl
  | cons p rest ih =>
    obtain ⟨k', v'⟩ := p
    simp only [List.map_cons, List.mem_cons] at h
    push_neg at h
    have h1 : ¬ (k' = k) := fun e => h.1 e.symm
    simp [dictGet?_cons, h1, ih h.2]

theorem dictGet?_dictPop_self (k : Int) (d : Items) (h : UniqueKeys d) :
    dictGet? k (dictPop k d) = none := by
  induction d with
  | nil => rfl
  | cons p rest ih =>
    obtain ⟨k', v'⟩ := p
    simp only [UniqueKeys, List.map_cons, List.nodup_cons] at h
    by_cases hk : k' = k
    · subst hk
      simpa [dictPop_cons] using dictGet?_eq_none_of_not_mem k' rest h.1
    · simp [dictPop_cons, dictGet?_cons, hk, ih h.2]

theorem dictMem_eq_isSome_dictGet? (k : Int) (d : Items) :
    dictMem k d = (dictGet? k d).isSome := by
  induction d with
  | nil => rfl
  | cons p rest ih =>
    obtain ⟨k', v'⟩ := p
    by_cases h : k' = k
    · simp [dictMem_cons, dictGet?_cons, h]
    · simp [dictMem_cons, dictGet?_cons, h, ih]

/-- The implicit well-formedness of the store: each stored item's `id` field
equals its key. -/
def idInvariant (d : Items) : Prop :=
  ∀ p ∈ d, (p.2).id = p.1

instance : DecidablePred idInvariant := fun d =>
  inferInstanceAs (Decidable (∀ p ∈ d, (p.2).id = p.1))

theorem idInvariant_dictSet (k : Int) (v : Item) (d : Items)
    (hd : idInvariant d) (hv : v.id = k) : idInvariant (dictSet k v d) := by
  induction d with
  | nil =>
    intro p hp
    simp only [dictSet, List.mem_singleton] at hp
    subst hp
    exact hv
  | cons q rest ih =>
    obtain ⟨k', v'⟩ := q
    have hd' : idInvariant rest := fun r hr => hd r (List.mem_cons_of_mem _ hr)
    have hhead : v'.id = k' := hd (k', v') (List.mem_cons_self _ _)
    intro p hp
    rw [dictSet_cons] at hp
    by_cases h : k' = k
    · rw [if_pos h] at hp
      rcases List.mem_cons.mp hp with rfl | hp
      · exact hv
      · exact hd' p hp
    · rw [if_neg h] at hp
      rcases List.mem_cons.mp hp with rfl | hp
      · exact hhead
      · exact ih hd' p hp

theorem idInvariant_dictPop (k : Int) (d : Items)
    (hd : idInvariant d) : idInvariant (dictPop k d) := by
  induction d with
  | nil => exact hd
  | cons q rest ih =>
    obtain ⟨k', v'⟩ := q
    have hd' : idInvariant rest := fun r hr => hd r (List.mem_cons_of_mem _ hr)
    have hhead : v'.id = k' := hd (k', v') (List.mem_cons_self _ _)
    intro p hp
    rw [dictPop_cons] at hp
    by_cases h : k' = k
    · rw [if_pos h] at hp
      exact hd' p hp
    · rw [if_neg h] at hp
      rcases List.mem_cons.mp hp with rfl | hp
      · exact hhead
      · exact ih hd' p hp

theorem mem_of_dictGet?_eq_some (k : Int) (v : Item) (d : Items)
    (h : dictGet? k d = some v) : (k, v) ∈ d := by
  induction d with
  | nil => simp [dictGet?] at h
  | cons p rest ih =>
    obtain ⟨k', v'⟩ := p
    rw [dictGet?_cons] at h
    by_cases hk : k' = k
    · rw [if_pos hk] at h
      subst hk
      injection h with h
      subst h
      exact List.mem_cons_self _ _
    · rw [if_neg hk] at h
      exact List.mem_cons_of_mem _ (ih h)

theorem applyUpdate_name (name : Option String) (price : Option Rat)
    (count : Option Int) (item0 : Item) :
    (applyUpdate name price count item0).name = name.getD item0.name := by
  rcases name with _ | n <;> rcases price with _ | p <;> rcases count with _ | c <;> rfl

theorem applyUpdate_price (name : Option String) (price : Option Rat)
    (count : Option Int) (item0 : Item) :
    (applyUpdate name price count item0).price = price.getD item0.price := by
  rcases name with _ | n <;> rcases price with _ | p <;> rcases count with _ | c <;> rfl

theorem applyUpdate_count (name : Option String) (price : Option Rat)
    (count : Option Int) (item0 : Item) :
    (applyUpdate name price count item0).count = count.getD item0.count := by
  rcases name with _ | n <;> rcases price with _ | p <;> rcases count with _ | c <;> rfl

theorem applyUpdate_id (name : Option String) (price : Option Rat)
    (count : Option Int) (item0 : Item) :
    (applyUpdate name price count item0).id = item0.id := by
  rcases name with _ | n <;> rcases price with _ | p <;> rcases count with _ | c <;> rfl

theorem applyUpdate_category (name : Option String) (price : Option Rat)
    (count : Option Int) (item0 : Item) :
    (applyUpdate name price count item0).category = item0.category := by
  rcases name with _ | n <;> rcases price with _ | p <;> rcases count with _ | c <;> rfl

/-! The claims. -/

/-- C1 (refuted by the code): `query_item_by_parameters` does not apply an
equality predicate to every supplied field.  On the initial store, querying
with `count = 20` selects only Nails (whose count is 100), because
`check_item` compares the count with `!=` (source line 69); the equality
filter the claim describes (`check_item_eq`) would select Hammer and
Pliers. -/
theorem c1_count_filter_flipped :
    (query_item_by_parameters none none (some 20) none initialItems).2.selection
      = [⟨"Nails", pNails, 100, 2, Category.consumables⟩]
    ∧ (initialItems.map Prod.snd).filter
        (fun item => check_item_eq ⟨none, none, some 20, none⟩ item)
      = [⟨"Hammer", pHammer, 20, 0, Category.tools⟩,
         ⟨"Pliers", pPliers, 20, 1, Category.tools⟩] := by
  decide

/-- C2: posting an item whose id is already a key raises nothing: the 400
`HTTPException` is only constructed, never raised, so the entry at that id is
overwritten with the new item and `{"added": item}` is returned. -/
theorem c2_add_item_duplicate_overwrites (item : Item) (items : Items)
    (h : dictMem item.id items = true) :
    (add_item item items).2 = Except.ok ("added", item)
    ∧ dictGet? item.id (add_item item items).1 = some item :=
  ⟨rfl, dictGet?_dictSet_self item.id item items⟩

/-- Concrete instance of `c2_add_item_duplicate_overwrites`: id 0 is already
taken by the Hammer. -/
theorem c2_add_item_duplicate_overwrites_witness :
    dictMem dupItem.id initialItems = true
    ∧ ((add_item dupItem initialItems).2 = Except.ok ("added", dupItem)
      ∧ dictGet? dupItem.id (add_item dupItem initialItems).1 = some dupItem) :=
  ⟨by decide, c2_add_item_duplicate_overwrites dupItem initialItems (by decide)⟩

/-- C3 (refuted by the code): updating the missing id 3 with a name supplied
does not fail with a 404: the handler constructs the 404 `HTTPException`
without raising it and then hits the `KeyError` from `items[item_id]`, an
unhandled server error. -/
theorem c3_update_missing_id_keyerror :
    update 3 (some "Axe") none none initialItems
      = (initialItems, Except.error (HandlerError.keyError 3)) := by
  decide

/-- C4: with no update parameters supplied, `update` raises
`HTTPException(400, "No parameters provide for update.")` for every id —
present or absent — and leaves the store unchanged. -/
theorem c4_update_no_params_http400 (item_id : Int) (items : Items) :
    update item_id none none none items
      = (items, Except.error
          (HandlerError.httpError 400 "No parameters provide for update.")) := rfl

/-- C5: for a stored id and at least one supplied field, `update` overwrites
exactly the supplied fields of the stored item, keeps its id and category,
leaves every other entry unchanged and returns `{"updated": item}`. -/
theorem c5_update_present_updates_exactly (item_id : Int) (name : Option String)
    (price : Option Rat) (count : Option Int) (items : Items) (item0 : Item)
    (hget : dictGet? item_id items = some item0)
    (hsome : (name.isSome || price.isSome || count.isSome) = true) :
    update item_id name price count items
        = (dictSet item_id (applyUpdate name price count item0) items,
           Except.ok ("updated", applyUpdate name price count item0))
    ∧ (applyUpdate name price count item0).name = name.getD item0.name
    ∧ (applyUpdate name price count item0).price = price.getD item0.price
    ∧ (applyUpdate name price count item0).count = count.getD item0.count
    ∧ (applyUpdate name price count item0).id = item0.id
    ∧ (applyUpdate name price count item0).category = item0.category
    ∧ dictGet? item_id (update item_id name price count items).1
        = some (applyUpdate name price count item0)
    ∧ ∀ k : Int, k ≠ item_id →
        dictGet? k (update item_id name price count items).1 = dictGet? k items := by
  have hguard : (name.isNone && price.isNone && count.isNone) = false := by
    rcases name <;> rcases price <;> rcases count <;> simp_all
  have hupd : update item_id name price count items
      = (dictSet item_id (applyUpdate name price count item0) items,
         Except.ok ("updated", applyUpdate name price count item0)) := by
    simp [update, hguard, hget]
  refine ⟨hupd, applyUpdate_name name price count item0,
    applyUpdate_price name price count item0,
    applyUpdate_count name price count item0,
    applyUpdate_id name price count item0,
    applyUpdate_category name price count item0, ?_, ?_⟩
  · rw [hupd]
    exact dictGet?_dictSet_self _ _ _
  · intro k hk
    rw [hupd]
    exact dictGet?_dictSet_ne _ _ _ _ hk

/-- Concrete instance of `c5_update_present_updates_exactly`: rename item 1 to
"Tongs" and set its count to 42. -/
theorem c5_update_present_updates_exactly_witness :
    update 1 (some "Tongs") none (some 42) initialItems
      = (dictSet 1 (applyUpdate (some "Tongs") none (some 42)
            ⟨"Pliers", pPliers, 20, 1, Category.tools⟩) initialItems,
         Except.ok ("updated", applyUpdate (some "Tongs") none (some 42)
            ⟨"Pliers", pPliers, 20, 1, Category.tools⟩)) :=
  (c5_update_present_updates_exactly 1 (some "Tongs") none (some 42) initialItems
    ⟨"Pliers", pPliers, 20, 1, Category.tools⟩ (by decide) (by decide)).1

/-- C6: `delete_item` raises a 404 and leaves the store unchanged when the id
is absent; when the id is stored it removes exactly that entry, leaves every
other entry unchanged and returns `{"delete": item}`. -/
theorem c6_delete_item_cases (item_id : Int) (items : Items)
    (huniq : UniqueKeys items) :
    (dictMem item_id items = false →
      delete_item item_id items
        = (items, Except.error (HandlerError.httpError 404
            s!"Item with {item_id} does not exist.")))
    ∧ ∀ item0 : Item, dictGet? item_id items = some item0 →
        delete_item item_id items
          = (dictPop item_id items, Except.ok ("delete", item0))
        ∧ dictGet? item_id (delete_item item_id items).1 = none
        ∧ ∀ k : Int, k ≠ item_id →
            dictGet? k (delete_item item_id items).1 = dictGet? k items := by
  constructor
  · intro hmem
    simp [delete_item, hmem]
  · intro item0 hget
    have hmem : dictMem item_id items = true := by
      rw [dictMem_eq_isSome_dictGet?, hget]
      rfl
    have hdel : delete_item item_id items
        = (dictPop item_id items, Except.ok ("delete", item0)) := by
      simp [delete_item, hmem, hget]
    refine ⟨hdel, ?_, ?_⟩
    · rw [hdel]
      exact dictGet?_dictPop_self _ _ huniq
    · intro k hk
      rw [hdel]
      exact dictGet?_dictPop_ne _ _ _ hk

/-- Concrete instances of `c6_delete_item_cases`: deleting the absent id 5 and
the stored id 2 of the initial store. -/
theorem c6_delete_item_cases_witness :
    delete_item missingId initialItems
      = (initialItems, Except.error (HandlerError.httpError 404
          s!"Item with {missingId} does not exist."))
    ∧ delete_item 2 initialItems
        = (dictPop 2 initialItems,
           Except.ok ("delete", ⟨"Nails", pNails, 100, 2, Category.consumables⟩)) :=
  ⟨(c6_delete_item_cases missingId initialItems (by decide)).1 (by decide),
   ((c6_delete_item_cases 2 initialItems (by decide)).2
      ⟨"Nails", pNails, 100, 2, Category.consumables⟩ (by decide)).1⟩

/-- C7: posting an item with a fresh id inserts it under `item.id`, leaves
every other entry unchanged, returns `{"added": item}`, and a subsequent
`query_item_by_id` with that id returns the same item. -/
theorem c7_add_item_new_inserts (item : Item) (items : Items)
    (h : dictMem item.id items = false) :
    (add_item item items).2 = Except.ok ("added", item)
    ∧ dictGet? item.id (add_item item items).1 = some item
    ∧ (∀ k : Int, k ≠ item.id →
        dictGet? k (add_item item items).1 = dictGet? k items)
    ∧ query_item_by_id item.id (add_item item items).1
        = ((add_item item items).1, Except.ok item) := by
  refine ⟨rfl, dictGet?_dictSet_self _ _ _, ?_, ?_⟩
  · intro k hk
    exact dictGet?_dictSet_ne _ _ _ _ hk
  · simp [query_item_by_id, add_item, dictGet?_dictSet_self]

/-- Concrete instance of `c7_add_item_new_inserts`: posting the fresh Wrench
(id 7) and reading it back. -/
theorem c7_add_item_new_inserts_witness :
    (add_item newItem initialItems).2 = Except.ok ("added", newItem)
    ∧ query_item_by_id newItem.id (add_item newItem initialItems).1
        = ((add_item newItem initialItems).1, Except.ok newItem) :=
  ⟨(c7_add_item_new_inserts newItem initialItems (by decide)).1,
   (c7_add_item_new_inserts newItem initialItems (by decide)).2.2.2⟩

/-- C8: the invariant "each stored item's `id` field equals its key" holds for
the initial store and is preserved by every handler. -/
theorem c8_id_invariant_preserved (d : Items) (hd : idInvariant d) :
    idInvariant initialItems
    ∧ idInvariant (index d).1
    ∧ (∀ item_id : Int, idInvariant (query_item_by_id item_id d).1)
    ∧ (∀ (name : Option String) (price : Option Rat) (count : Option Int)
        (category : Option Category),
        idInvariant (query_item_by_parameters name price count category d).1)
    ∧ (∀ item : Item, idInvariant (add_item item d).1)
    ∧ (∀ (item_id : Int) (name : Option String) (price : Option Rat)
        (count : Option Int),
        idInvariant (update item_id name price count d).1)
    ∧ (∀ item_id : Int, idInvariant (delete_item item_id d).1) := by
  refine ⟨by decide, hd, ?_, fun _ _ _ _ => hd, ?_, ?_, ?_⟩
  · intro item_id
    rcases hq : dictGet? item_id d with _ | it
    · simpa [query_item_by_id, hq] using hd
    · simpa [query_item_by_id, hq] using hd
  · intro item
    exact idInvariant_dictSet item.id item d hd rfl
  · intro item_id name price count
    by_cases hg : (name.isNone && price.isNone && count.isNone) = true
    · simpa [update, hg] using hd
    · have hg' : (name.isNone && price.isNone && count.isNone) = false :=
        Bool.eq_false_iff.mpr hg
      rcases hq : dictGet? item_id d with _ | item0
      · simpa [update, hg', hq] using hd
      · have hmem := mem_of_dictGet?_eq_some item_id item0 d hq
        have hid : item0.id = item_id := hd (item_id, item0) hmem
        have hset : (update item_id name price count d).1
            = dictSet item_id (applyUpdate name price count item0) d := by
          simp [update, hg', hq]
        rw [hset]
        exact idInvariant_dictSet _ _ _ hd
          (by rw [applyUpdate_id]; exact hid)
  · intro item_id
    by_cases hm : dictMem item_id d = true
    · rcases hq : dictGet? item_id d with _ | it
      · simpa [delete_item, hm, hq] using hd
      · have hpop : (delete_item item_id d).1 = dictPop item_id d := by
          simp [delete_item, hm, hq]
        rw [hpop]
        exact idInvariant_dictPop _ _ hd
    · have hm' : dictMem item_id d = false := Bool.eq_false_iff.mpr hm
      simpa [delete_item, hm'] using hd

/-- Concrete instance of `c8_id_invariant_preserved`: the initial store
satisfies the invariant, and so does the store after posting the Wrench. -/
theorem c8_id_invariant_preserved_witness :
    idInvariant initialItems
    ∧ idInvariant (add_item newItem initialItems).1 :=
  ⟨(c8_id_invariant_preserved initialItems (by decide)).1,
   (c8_id_invariant_preserved initialItems (by decide)).2.2.2.2.1 newItem⟩

/-- C9: for a missing id, `query_item_by_id` neither returns an item nor
raises an `HTTPException`: the constructed 404 is discarded and the final
`items[item_id]` lookup fails with a `KeyError`. -/
theorem c9_query_by_id_missing_keyerror (item_id : Int) (items : Items)
    (h : dictMem item_id items = false) :
    (query_item_by_id item_id items).2
        = Except.error (HandlerError.keyError item_id)
    ∧ (∀ it : Item, (query_item_by_id item_id items).2 ≠ Except.ok it)
    ∧ ∀ (status : Nat) (detail : String),
        (query_item_by_id item_id items).2
          ≠ Except.error (HandlerError.httpError status detail) := by
  rcases hq : dictGet? item_id items with _ | it
  · refine ⟨by simp [query_item_by_id, hq], ?_, ?_⟩
    · intro it
      simp [query_item_by_id, hq]
    · intro status detail
      simp [query_item_by_id, hq]
  · exfalso
    have hb := dictMem_eq_isSome_dictGet? item_id items
    rw [h, hq] at hb
    simp at hb

/-- Concrete instance of `c9_query_by_id_missing_keyerror`: id 42 is not in
the initial store. -/
theorem c9_query_by_id_missing_keyerror_witness :
    (query_item_by_id 42 initialItems).2
      = Except.error (HandlerError.keyError 42) :=
  (c9_query_by_id_missing_keyerror 42 initialItems (by decide)).1

/-- C10: `query_item_by_parameters` leaves the store untouched and echoes the
four query arguments back verbatim in the `"query"` field of its result. -/
theorem c10_query_by_parameters_pure_echo (name : Option String)
    (price : Option Rat) (count : Option Int) (category : Option Category)
    (items : Items) :
    (query_item_by_parameters name price count category items).1 = items
    ∧ (query_item_by_parameters name price count category items).2.query
        = ⟨name, price, count, category⟩ :=
  ⟨rfl, rfl⟩

end MoreRouting
